import Mathlib

/-!
Formal model of the asynchronous video-export backend
(`src/backend/app/models.py`, `src/backend/app/job_queue.py`,
`src/backend/app/video_processor.py`).

Conventions of the shallow embedding:
* Python floats are modelled as exact rationals (`ℚ`); every numeric value
  appearing in the verified properties is exactly representable in binary
  floating point, so no rounding behaviour is lost.
* `datetime.now()` is an external input: operations that read the clock take
  an explicit `now : ℕ` tick, and `add_log`'s `strftime("%H:%M:%S")` string
  is passed in as an explicit `ts : String`.
* `uuid` generation is an external input (`id` parameters).
* The Python `dict` is modelled as an insertion-ordered association list,
  matching CPython's guaranteed dict ordering used by `get_all_jobs` and
  `get_queue_stats`.
* `JobQueue._lock` is a non-reentrant `threading.Lock`.  Acquiring it while
  it is already held blocks forever.  Every method that executes
  `with self._lock:` is therefore modelled as a function into `LockRes`,
  whose `deadlock` constructor records the store state at the moment the
  call blocked (the partial mutations already performed remain visible).
  The unused `_callbacks` registry and the worker-loop bookkeeping fields
  (`current_job_id`, `is_processing`), which none of the modelled
  operations read or write, are omitted from the state.
-/

namespace VideoEditor

/-- `JobStatus` enum of `models.py`. -/
inductive JobStatus where
  | pending
  | processing
  | completed
  | failed
deriving DecidableEq, Repr

/-- The string `.value` of a `JobStatus` member. -/
def JobStatus.value : JobStatus → String
  | .pending => "pending"
  | .processing => "processing"
  | .completed => "completed"
  | .failed => "failed"

/-- `Position` model (percentages of clip width/height). -/
structure Position where
  x : ℚ
  y : ℚ
deriving DecidableEq, Repr

/-- `TextOverlay` model. -/
structure TextOverlay where
  text : String
  font_family : String
  font_size : ℕ
  color : String
  position : Position
  start_time : ℚ
  end_time : ℚ
deriving DecidableEq, Repr

/-- `image_shape` literal of `ImageOverlay`. -/
inductive ImageShape where
  | circle
  | rectangle
  | square
deriving DecidableEq, Repr

/-- `ImageOverlay` model. -/
structure ImageOverlay where
  image_url : String
  image_shape : ImageShape
  shape_image_url : Option String
  percentage_width : ℚ
  percentage_from_top : ℚ
  percentage_from_start : ℚ
  start_time : ℚ
  end_time : ℚ
deriving DecidableEq, Repr

/-- `ClipEffects` model. -/
structure ClipEffects where
  fade_in : ℚ
  fade_out : ℚ
  speed : ℚ
deriving DecidableEq, Repr

/-- `ClipRequest` model. -/
structure ClipRequest where
  video_url : String
  start_time : ℚ
  end_time : ℚ
  track : ℤ
  effects : ClipEffects
  text_overlays : List TextOverlay
  image_overlays : List ImageOverlay
deriving DecidableEq, Repr

/-- `AudioTrackRequest` model. -/
structure AudioTrackRequest where
  url : String
  volume : ℚ
  start_time : ℚ
deriving DecidableEq, Repr

/-- `quality` literal of `ExportSettings` (`"low" | "optimised" | "high"`). -/
inductive Quality where
  | low
  | optimised
  | high
deriving DecidableEq, Repr

/-- The string value of a `Quality` literal. -/
def Quality.value : Quality → String
  | .low => "low"
  | .optimised => "optimised"
  | .high => "high"

/-- `ExportSettings` model.  `aspect_ratio` is kept as the raw string
(`"1:1" | "16:9" | "9:16"`), mirroring the string comparisons in
`resize_to_aspect_ratio`; `format` is the raw string
(`"mp4" | "mov" | "avi"`). -/
structure ExportSettings where
  aspect_ratio : String
  quality : Quality
  format : String
deriving DecidableEq, Repr

/-- `ExportRequest` model. -/
structure ExportRequest where
  clips : List ClipRequest
  audio_tracks : List AudioTrackRequest
  settings : ExportSettings
deriving DecidableEq, Repr

/-- `Job` model of `models.py`. -/
structure Job where
  id : String
  status : JobStatus
  progress : ℚ
  logs : List String
  created_at : ℕ
  completed_at : Option ℕ
  output_url : Option String
  request : Option ExportRequest
deriving DecidableEq, Repr

/-! ## Job Store (`job_queue.py`) -/

/-- The mutable state of a `JobQueue` instance: the `jobs` dict (as an
insertion-ordered association list), the FIFO `queue` deque of job ids, and
whether `_lock` is currently held. -/
structure JQState where
  jobs : List (String × Job)
  queue : List String
  lockHeld : Bool
deriving DecidableEq, Repr

/-- Result of calling a `JobQueue` method: either the method returns
normally (`ok`), or it blocks forever trying to acquire the already-held
non-reentrant `_lock` (`deadlock`).  Both constructors carry the store
state, which in the `deadlock` case includes any mutations performed
before the blocking acquire. -/
inductive LockRes (α : Type) where
  | ok : JQState → α → LockRes α
  | deadlock : JQState → LockRes α
deriving DecidableEq, Repr

/-- The store state carried by a `LockRes`. -/
def LockRes.state : LockRes α → JQState
  | .ok s _ => s
  | .deadlock s => s

/-- Whether the call blocked forever. -/
def LockRes.isDeadlock : LockRes α → Bool
  | .ok _ _ => false
  | .deadlock _ => true

/-- `self.jobs.get(job_id)` (dict keys are unique, so first match). -/
def lookupJob (jobs : List (String × Job)) (job_id : String) : Option Job :=
  match jobs with
  | [] => none
  | p :: rest => if p.fst = job_id then some p.snd else lookupJob rest job_id

/-- In-place mutation of the dict entry for `job_id` (other entries and the
insertion order are untouched). -/
def mapJob (jobs : List (String × Job)) (job_id : String) (f : Job → Job) :
    List (String × Job) :=
  match jobs with
  | [] => []
  | p :: rest =>
    (if p.fst = job_id then (p.fst, f p.snd) else p) :: mapJob rest job_id f

/-- The keyword arguments accepted by `update_job(**kwargs)` at its call
sites (`set_progress`, `complete_job`, `fail_job`); `none` means the keyword
was not passed.  All four names are attributes of `Job`, so the
`hasattr` guard in `update_job` always passes for them. -/
structure JobUpdate where
  status : Option JobStatus
  progress : Option ℚ
  completed_at : Option ℕ
  output_url : Option String
deriving DecidableEq, Repr

/-- `setattr(job, key, value)` for each keyword that was passed. -/
def applyUpdate (j : Job) (u : JobUpdate) : Job :=
  { j with
    status := u.status.getD j.status
    progress := u.progress.getD j.progress
    completed_at := match u.completed_at with
      | some t => some t
      | none => j.completed_at
    output_url := match u.output_url with
      | some url => some url
      | none => j.output_url }

/-- `JobQueue.update_job`: under the lock, partial merge of the passed
fields into the job; silently a no-op when the id is unknown. -/
def update_job (job_id : String) (u : JobUpdate) (s : JQState) : LockRes Unit :=
  if s.lockHeld then .deadlock s
  else .ok { s with jobs := mapJob s.jobs job_id (fun j => applyUpdate j u) } ()

/-- `JobQueue.add_log`: under the lock, append one timestamped entry to the
job's log; silently a no-op when the id is unknown.  `ts` is the
`strftime("%H:%M:%S")` string. -/
def add_log (job_id : String) (ts log : String) (s : JQState) : LockRes Unit :=
  if s.lockHeld then .deadlock s
  else .ok { s with jobs :=
    (mapJob s.jobs job_id
      (fun j => { j with logs := j.logs ++ ["[" ++ ts ++ "] " ++ log] })) } ()

/-- `JobQueue.set_progress`: `update_job(job_id, progress=min(progress, 100))`.
Only the upper bound is clamped. -/
def set_progress (job_id : String) (progress : ℚ) (s : JQState) : LockRes Unit :=
  update_job job_id
    { status := none, progress := some (min progress 100),
      completed_at := none, output_url := none } s

/-- `JobQueue.create_job`: insert a fresh PENDING job into the dict and
append its id to the deque (under the lock), then log the creation entry
(lock re-acquired after release, so no deadlock). -/
def create_job (job_id : String) (now : ℕ) (ts : String)
    (request : ExportRequest) (s : JQState) : LockRes Job :=
  if s.lockHeld then .deadlock s
  else
    let job : Job :=
      { id := job_id, status := .pending, progress := 0, logs := [],
        created_at := now, completed_at := none, output_url := none,
        request := some request }
    let s1 : JQState :=
      { s with jobs := s.jobs ++ [(job_id, job)], queue := s.queue ++ [job_id] }
    match add_log job_id ts "Job created and added to queue" s1 with
    | .ok s2 _ => .ok s2 ((lookupJob s2.jobs job_id).getD job)
    | .deadlock s2 => .deadlock s2

/-- `JobQueue.complete_job`: `update_job(status=COMPLETED, progress=100,
completed_at=now, output_url=url)` followed by the success log entry. -/
def complete_job (job_id : String) (now : ℕ) (ts : String)
    (output_url : String) (s : JQState) : LockRes Unit :=
  match update_job job_id
      { status := some .completed, progress := some 100,
        completed_at := some now, output_url := some output_url } s with
  | .ok s1 _ => add_log job_id ts "Job completed successfully" s1
  | .deadlock s1 => .deadlock s1

/-- `JobQueue.fail_job`: `update_job(status=FAILED, completed_at=now)`
followed by the error log entry. -/
def fail_job (job_id : String) (now : ℕ) (ts : String) (error : String)
    (s : JQState) : LockRes Unit :=
  match update_job job_id
      { status := some .failed, progress := none,
        completed_at := some now, output_url := none } s with
  | .ok s1 _ => add_log job_id ts ("Job failed: " ++ error) s1
  | .deadlock s1 => .deadlock s1

/-- The `while self.queue:` loop of `get_next_job`: pop ids from the front
of the deque (each pop is destructive) until one maps to a job whose status
is still PENDING; return that job together with the remaining deque. -/
def drainQueue (jobs : List (String × Job)) : List String → Option (Job × List String)
  | [] => none
  | job_id :: rest =>
    match lookupJob jobs job_id with
    | some j => if j.status = .pending then some (j, rest) else drainQueue jobs rest
    | none => drainQueue jobs rest

/-- `JobQueue.get_next_job`: under the lock, pop until a PENDING job is
found (consumed and stale ids are discarded); `none` when the deque is
exhausted (in which case every id has been popped). -/
def get_next_job (s : JQState) : LockRes (Option Job) :=
  if s.lockHeld then .deadlock s
  else
    match drainQueue s.jobs s.queue with
    | some (j, rest) => .ok { s with queue := rest } (some j)
    | none => .ok { s with queue := [] } none

/-- `JobQueue.cancel_job`: acquires `_lock`; when the job exists and is
PENDING it mutates `status` and `completed_at` and then calls
`self.add_log` — which tries to re-acquire the already-held non-reentrant
lock and blocks forever.  The queue removal and the lock release on the
lines after that call are modelled exactly as written but are dead code.
On any other status (or unknown id) the method releases the lock and
returns without touching anything. -/
def cancel_job (job_id : String) (now : ℕ) (ts : String) (s : JQState) :
    LockRes Unit :=
  if s.lockHeld then .deadlock s
  else
    let s1 : JQState := { s with lockHeld := true }
    match lookupJob s1.jobs job_id with
    | some j =>
      if j.status = .pending then
        let s2 : JQState :=
          { s1 with jobs :=
              (mapJob s1.jobs job_id
                (fun j0 => { j0 with status := .failed, completed_at := some now })) }
        match add_log job_id ts "Job cancelled by user" s2 with
        | .ok s3 _ => .ok { s3 with queue := s3.queue.erase job_id, lockHeld := false } ()
        | .deadlock s3 => .deadlock s3
      else .ok { s1 with lockHeld := false } ()
    | none => .ok { s1 with lockHeld := false } ()

/-- The `status_order` dict of `get_all_jobs`
(`{'processing': 0, 'pending': 1, 'completed': 2, 'failed': 3}`, default 4). -/
def status_order : JobStatus → ℕ
  | .processing => 0
  | .pending => 1
  | .completed => 2
  | .failed => 3

/-- The sort key comparison used by `get_all_jobs`: Python's `sorted` with
`key=lambda job: (status_order[...], job.created_at)` orders by that tuple
lexicographically. -/
def jobKeyLe (a b : Job) : Prop :=
  status_order a.status < status_order b.status ∨
    (status_order a.status = status_order b.status ∧ a.created_at ≤ b.created_at)

instance : DecidableRel jobKeyLe := fun a b =>
  inferInstanceAs (Decidable (status_order a.status < status_order b.status ∨
    (status_order a.status = status_order b.status ∧ a.created_at ≤ b.created_at)))

instance : IsTotal Job jobKeyLe := by
  constructor
  intro a b
  unfold jobKeyLe
  omega

instance : IsTrans Job jobKeyLe := by
  constructor
  intro a b c hab hbc
  unfold jobKeyLe at hab hbc ⊢
  omega

/-- `JobQueue.get_all_jobs`: `sorted(self.jobs.values(), key=...)`.
Python's `sorted` is a stable sort; `List.insertionSort` with the
(total, transitive, reflexive) relation `jobKeyLe` is also stable, so the
two agree on every input. -/
def get_all_jobs (s : JQState) : List Job :=
  List.insertionSort jobKeyLe (s.jobs.map Prod.snd)

/-- The stats dict returned by `get_queue_stats`. -/
structure QueueStats where
  pending : ℕ
  processing : ℕ
  completed : ℕ
  failed : ℕ
  total : ℕ
deriving DecidableEq, Repr

/-- `stats[job.status.value] += 1`. -/
def bumpStat (st : QueueStats) : JobStatus → QueueStats
  | .pending => { st with pending := st.pending + 1 }
  | .processing => { st with processing := st.processing + 1 }
  | .completed => { st with completed := st.completed + 1 }
  | .failed => { st with failed := st.failed + 1 }

/-- `JobQueue.get_queue_stats`: start from all-zero counters with
`total = len(self.jobs)` and bump one status bucket per job. -/
def get_queue_stats (s : JQState) : QueueStats :=
  s.jobs.foldl (fun st p => bumpStat st p.snd.status)
    { pending := 0, processing := 0, completed := 0, failed := 0,
      total := s.jobs.length }

/-- The sum of the four status buckets of a stats record. -/
def statSum (st : QueueStats) : ℕ :=
  st.pending + st.processing + st.completed + st.failed

/-! ## Composition engine (`video_processor.py`)

The media-codec primitives (MoviePy, PIL, `requests`, the filesystem) are
external collaborators; they are abstracted by a `RenderEnv` that fixes, for
one export run, how URL resolution, file existence, remote image fetches,
text rendering and the final artifact write behave.  The engine's own
control flow — ordering of stages, which failures are swallowed and which
propagate, the log and progress callbacks it fires — is modelled exactly. -/

/-- One entry of the `QUALITY_SETTINGS` dict. -/
structure QualityPreset where
  width : ℕ
  height : ℕ
  bitrate : String
  fps : ℕ
deriving DecidableEq, Repr

/-- The `QUALITY_SETTINGS` dict. -/
def QUALITY_SETTINGS : Quality → QualityPreset
  | .low => { width := 854, height := 480, bitrate := "1000k", fps := 24 }
  | .optimised => { width := 1280, height := 720, bitrate := "2500k", fps := 30 }
  | .high => { width := 1920, height := 1080, bitrate := "5000k", fps := 30 }

/-- The geometry computed by `resize_to_aspect_ratio`: the target (and
background `ColorClip`) dimensions, the uniform scale factor, the resized
content dimensions, and the centering position of the content on the
background. -/
structure ResizeResult where
  targetW : ℕ
  targetH : ℕ
  scale : ℚ
  newW : ℕ
  newH : ℕ
  xPos : ℕ
  yPos : ℕ
deriving DecidableEq, Repr

/-- `VideoProcessor.resize_to_aspect_ratio`, as a pure function of the
source dimensions and the settings.  Python's `int()` truncation on the
non-negative products is `Rat.floor`-then-`toNat`; `//` on the non-negative
differences is `ℕ` division (`newW ≤ targetW` and `newH ≤ targetH` hold
whenever the source dimensions are positive, see
`resize_content_le_target`). -/
def resize_to_aspect_ratio (srcW srcH : ℕ) (aspect_r : String) (quality : Quality) :
    ResizeResult :=
  let qs := QUALITY_SETTINGS quality
  let target_width : ℕ :=
    if aspect_r = "16:9" then qs.width
    else if aspect_r = "9:16" then qs.height
    else min qs.width qs.height
  let target_height : ℕ :=
    if aspect_r = "16:9" then qs.height
    else if aspect_r = "9:16" then qs.width
    else min qs.width qs.height
  let scale_w : ℚ := (target_width : ℚ) / (srcW : ℚ)
  let scale_h : ℚ := (target_height : ℚ) / (srcH : ℚ)
  let scale : ℚ := min scale_w scale_h
  let new_width : ℕ := (Rat.floor ((srcW : ℚ) * scale)).toNat
  let new_height : ℕ := (Rat.floor ((srcH : ℚ) * scale)).toNat
  { targetW := target_width, targetH := target_height, scale := scale,
    newW := new_width, newH := new_height,
    xPos := (target_width - new_width) / 2,
    yPos := (target_height - new_height) / 2 }

/-- The external collaborators of one export run.  `resolve` is the
`url_resolver` callback (total: it always returns a path), `path_exists` is
`os.path.exists`, `fetchImage` tells whether `download_image` +
`process_overlay_image` succeed for an overlay image URL (`httpErr` is the
text of the underlying exception when they do not), `textOk` tells whether
`TextClip` construction succeeds for a text overlay, `write` is `none` when
`write_videofile` succeeds and `some e` when it raises with message `e`,
and `uuid` is the hex fragment used in the output filename. -/
structure RenderEnv where
  resolve : String → String
  path_exists : String → Bool
  fetchImage : String → Bool
  httpErr : String → String
  textOk : TextOverlay → Bool
  write : Option String
  uuid : String
  uploads_dir : String

/-- What the model keeps of a processed per-clip MoviePy object: how many
text and image overlay clips were successfully composited onto it. -/
structure PClip where
  textCount : ℕ
  imageCount : ℕ
deriving DecidableEq, Repr

/-- `VideoProcessor.create_image_overlay_clip`: download and process the
overlay image, logging and re-raising on failure.  Returns the log lines it
emits through `log_callback` and either success or the exception text. -/
def create_image_overlay_clip (env : RenderEnv) (overlay : ImageOverlay) :
    List String × Except String Unit :=
  if env.fetchImage overlay.image_url then
    (["Processed overlay image: " ++ overlay.image_url], .ok ())
  else
    let e := "Failed to download image from " ++ overlay.image_url ++ ": " ++
      env.httpErr overlay.image_url
    (["Failed to create image overlay: " ++ e], .error e)

/-- The text-overlay loop of `process_clip`: each `TextClip` failure is
caught and logged as a warning; survivors are collected. -/
def buildTextOverlays (env : RenderEnv) : List TextOverlay → List String × ℕ
  | [] => ([], 0)
  | o :: rest =>
    let r := buildTextOverlays env rest
    if env.textOk o then (r.1, r.2 + 1)
    else (("Warning: Failed to add text overlay: " ++ "TextClip failed") :: r.1, r.2)

/-- The image-overlay loop of `process_clip`: each
`create_image_overlay_clip` failure is caught and logged as a warning;
survivors are collected. -/
def buildImageOverlays (env : RenderEnv) : List ImageOverlay → List String × ℕ
  | [] => ([], 0)
  | o :: rest =>
    let c := create_image_overlay_clip env o
    let r := buildImageOverlays env rest
    match c.2 with
    | .ok _ => (c.1 ++ r.1, r.2 + 1)
    | .error e => (c.1 ++ ("Warning: Failed to add image overlay: " ++ e) :: r.1, r.2)

/-- `VideoProcessor.process_clip`: resolve the clip's media reference and
fail the whole clip if the file does not exist; then trim, apply effects,
and build the overlay composites, where every individual overlay failure is
caught, logged as a warning and skipped.  Returns the emitted log lines and
either the processed clip or the fatal error text.  (The purely diagnostic
log lines listing directories are elided; the decisive ones are kept.) -/
def process_clip (env : RenderEnv) (clip_request : ClipRequest) :
    List String × Except String PClip :=
  let video_path := env.resolve clip_request.video_url
  let header := ["=== Starting process_clip ===",
    "Input video_url: " ++ clip_request.video_url,
    "Final video path: " ++ video_path]
  if env.path_exists video_path then
    let bt := buildTextOverlays env clip_request.text_overlays
    let bi := buildImageOverlays env clip_request.image_overlays
    let tailLogs :=
      (if clip_request.text_overlays.isEmpty then [] else
        ["Adding " ++ toString clip_request.text_overlays.length ++ " text overlay(s)"] ++ bt.1) ++
      (if clip_request.image_overlays.isEmpty then [] else
        ["Adding " ++ toString clip_request.image_overlays.length ++ " image overlay(s)"] ++ bi.1) ++
      (if bt.2 + bi.2 = 0 then [] else
        ["Successfully added " ++ toString bt.2 ++ " text and " ++
          toString bi.2 ++ " image overlay(s)"])
    (header ++ tailLogs, .ok { textCount := bt.2, imageCount := bi.2 })
  else
    let e := "Video file not found at path: " ++ video_path
    (header ++ ["ERROR in process_clip during load: " ++ e], .error e)

/-- The `for i, clip_req in enumerate(clips_requests)` loop of
`process_export`: `n` is `total_clips`, `i` the running index.  After each
successful clip the progress callback fires with `(i + 1) / n * 50`; a
fatal clip error aborts the loop (progress already reported stays
reported). -/
def processClips (env : RenderEnv) (n : ℕ) :
    ℕ → List ClipRequest → List String × List ℚ × Except String (List PClip)
  | _, [] => ([], [], .ok [])
  | i, cr :: rest =>
    let pre := ["Processing clip " ++ toString (i + 1) ++ "/" ++ toString n,
      "Clip video_url: " ++ cr.video_url]
    let c := process_clip env cr
    match c.2 with
    | .error e => (pre ++ c.1, [], .error e)
    | .ok pc =>
      let t := processClips env n (i + 1) rest
      (pre ++ c.1 ++ t.1, (((i : ℚ) + 1) / (n : ℚ) * 50) :: t.2.1,
        match t.2.2 with
        | .ok pcs => .ok (pc :: pcs)
        | .error e => .error e)

/-- The audio-track loop of `process_export`: resolve each track URL; a
missing file (or any other per-track failure) is logged as a warning and
skipped, never fatal. -/
def processAudio (env : RenderEnv) : List AudioTrackRequest → List String × ℕ
  | [] => ([], 0)
  | a :: rest =>
    let audio_path := env.resolve a.url
    let r := processAudio env rest
    if env.path_exists audio_path then (r.1, r.2 + 1)
    else (("Warning: Audio file not found: " ++ audio_path) :: r.1, r.2)

/-- The observable outcome of `process_export`: the log lines sent through
`log_callback`, the values sent through `progress_callback` in order, and
either the returned download path or the exception text that propagated to
the worker loop. -/
structure ExportOutcome where
  logs : List String
  progress : List ℚ
  result : Except String String
deriving Repr

/-- `VideoProcessor.process_export`.  Stage order and progress checkpoints
exactly as in the source: per-clip progress `(i+1)/n*50`; `60` after
concatenation; `70` after `resize_to_aspect_ratio`; the audio block runs
only when `audio_tracks` is non-empty but `progress_callback(80)` is
executed unconditionally after it; `100` is reported only after
`write_videofile` returns successfully, and the returned reference is
`/api/download/export_<uuid>.<format>`.  A single clip short-circuits
concatenation; any fatal stage error is logged as `Export failed: ...` and
re-raised. -/
def process_export (env : RenderEnv) (clips_requests : List ClipRequest)
    (audio_tracks : List AudioTrackRequest) (settings : ExportSettings) :
    ExportOutcome :=
  let header := ["Starting export process...",
    "Uploads directory: " ++ env.uploads_dir]
  let n := clips_requests.length
  let t := processClips env n 0 clips_requests
  match t.2.2 with
  | .error e =>
    { logs := header ++ t.1 ++ ["Export failed: " ++ e], progress := t.2.1,
      result := .error e }
  | .ok _pcs =>
    let ls1 := header ++ t.1 ++ ["Concatenating clips..."]
    let ps1 := t.2.1 ++ [60]
    let ls2 := ls1 ++ ["Resizing to " ++ settings.aspect_ratio ++ " aspect ratio..."]
    let ps2 := ps1 ++ [70]
    let als := (processAudio env audio_tracks).1
    let ls3 := ls2 ++
      (if audio_tracks.isEmpty then [] else
        ["Adding " ++ toString audio_tracks.length ++ " audio track(s)..."] ++ als)
    let ps3 := ps2 ++ [80]
    let ls4 := ls3 ++ ["Encoding video (" ++ settings.quality.value ++ " quality)..."]
    match env.write with
    | none =>
      { logs := ls4 ++ ["Export completed successfully!"],
        progress := ps3 ++ [100],
        result := .ok ("/api/download/" ++ ("export_" ++ env.uuid ++ "." ++ settings.format)) }
    | some e =>
      { logs := ls4 ++ ["Export failed: " ++ e], progress := ps3,
        result := .error e }

/-! ## Concrete scenario data -/

/-- The empty store, as after `JobQueue.__init__`. -/
def emptyState : JQState := { jobs := [], queue := [], lockHeld := false }

/-- A fresh job record with the given id, status and creation tick. -/
def mkJob (job_id : String) (st : JobStatus) (created : ℕ) : Job :=
  { id := job_id, status := st, progress := 0, logs := [], created_at := created,
    completed_at := none, output_url := none, request := none }

/-- A minimal export request used when creating scenario jobs. -/
def reqStub : ExportRequest :=
  { clips := [], audio_tracks := [],
    settings := { aspect_ratio := "16:9", quality := .optimised, format := "mp4" } }

/-- Store holding one PROCESSING job `p1`. -/
def sOneProcessing : JQState :=
  { jobs := [("p1", mkJob "p1" .processing 1)], queue := [], lockHeld := false }

/-- Store holding one PENDING job `P` whose id is queued. -/
def sOnePending : JQState :=
  { jobs := [("P", mkJob "P" .pending 1)], queue := ["P"], lockHeld := false }

/-- Store with jobs `A`, `B`, `C` created in that order through
`create_job` (all PENDING, queue `[A, B, C]`). -/
def fifoState : JQState :=
  ((create_job "C" 3 "00:00:03" reqStub
    ((create_job "B" 2 "00:00:02" reqStub
      ((create_job "A" 1 "00:00:01" reqStub emptyState).state)).state)).state)

/-- Listing scenario of §8: `{A: FAILED@t1, B: PENDING@t2, C: PROCESSING@t3,
D: PENDING@t4}` with `t1 < t2 < t3 < t4`, in dict insertion order. -/
def listScenario : JQState :=
  { jobs := [("A", mkJob "A" .failed 1), ("B", mkJob "B" .pending 2),
             ("C", mkJob "C" .processing 3), ("D", mkJob "D" .pending 4)],
    queue := [], lockHeld := false }

/-- An environment in which every resource resolves, every fetch succeeds
and the artifact write succeeds. -/
def envAllOk : RenderEnv :=
  { resolve := fun u => u, path_exists := fun _ => true,
    fetchImage := fun _ => true, httpErr := fun _ => "",
    textOk := fun _ => true, write := none, uuid := "deadbeef",
    uploads_dir := "/app/backend/uploads" }

/-- A plain one-clip request with no overlays. -/
def plainClip : ClipRequest :=
  { video_url := "/static/uploads/a.mp4", start_time := 0, end_time := 5,
    track := 0, effects := { fade_in := 0, fade_out := 0, speed := 1 },
    text_overlays := [], image_overlays := [] }

/-- Default export settings (`16:9`, optimised, mp4). -/
def defaultSettings : ExportSettings :=
  { aspect_ratio := "16:9", quality := .optimised, format := "mp4" }

/-- Like `envAllOk` but every remote overlay-image fetch fails. -/
def envFetchFail : RenderEnv :=
  { envAllOk with
    fetchImage := fun _ => false,
    httpErr := fun _ => "connection refused" }

/-- A concrete image overlay (the §8 geometry values). -/
def sampleOverlay : ImageOverlay :=
  { image_url := "http://img.example/over.png", image_shape := .circle,
    shape_image_url := none, percentage_width := 30, percentage_from_top := 20,
    percentage_from_start := 35, start_time := 0, end_time := 5 }

/-- `plainClip` with one image overlay attached. -/
def overlayClip : ClipRequest :=
  { plainClip with image_overlays := [sampleOverlay] }

/-! ## Helper lemmas -/

theorem lookupJob_mapJob_self (jobs : List (String × Job)) (job_id : String)
    (f : Job → Job) :
    lookupJob (mapJob jobs job_id f) job_id = (lookupJob jobs job_id).map f := by
  induction jobs with
  | nil => rfl
  | cons p rest ih =>
    by_cases h : p.fst = job_id
    · simp [lookupJob, mapJob, h]
    · simp [lookupJob, mapJob, h, ih]

theorem lookupJob_mapJob_ne (jobs : List (String × Job)) (job_id other : String)
    (f : Job → Job) (h : other ≠ job_id) :
    lookupJob (mapJob jobs job_id f) other = lookupJob jobs other := by
  induction jobs with
  | nil => rfl
  | cons p rest ih =>
    by_cases hp : p.fst = job_id
    · simp [lookupJob, mapJob, hp, ih, Ne.symm h]
    · simp [lookupJob, mapJob, hp, ih]

theorem foldl_bumpStat (l : List (String × Job)) :
    ∀ st : QueueStats,
      statSum (l.foldl (fun acc p => bumpStat acc p.snd.status) st) =
        statSum st + l.length ∧
      (l.foldl (fun acc p => bumpStat acc p.snd.status) st).total = st.total := by
  induction l with
  | nil => intro st; simp
  | cons p rest ih =>
    intro st
    simp only [List.foldl_cons, List.length_cons]
    have h := ih (bumpStat st p.snd.status)
    refine ⟨?_, ?_⟩
    · rw [h.1]
      cases p.snd.status <;> simp [bumpStat, statSum] <;> omega
    · rw [h.2]
      cases p.snd.status <;> simp [bumpStat]

/-! ## Claims about the Job Store -/

/-- Claim C7: for every population of `N` jobs in the Job Store, the
statistics operation returns counts with
`pending + processing + completed + failed == total == N`. -/
theorem queue_stats_partition (s : JQState) :
    (get_queue_stats s).pending + (get_queue_stats s).processing +
        (get_queue_stats s).completed + (get_queue_stats s).failed =
      (get_queue_stats s).total ∧
    (get_queue_stats s).total = s.jobs.length := by
  have h := foldl_bumpStat s.jobs
    { pending := 0, processing := 0, completed := 0, failed := 0,
      total := s.jobs.length }
  have h1 := h.1
  have h2 := h.2
  unfold statSum at h1
  unfold get_queue_stats
  simp at h1 h2
  constructor
  · omega
  · exact h2

/-- Claim C6: `get_all_jobs` returns the jobs sorted by the status priority
key `processing(0) < pending(1) < completed(2) < failed(3)` and then by
`created_at` ascending, as a permutation of the store's population; on the
scenario `{A: FAILED@1, B: PENDING@2, C: PROCESSING@3, D: PENDING@4}` the
result is `[C, B, D, A]`. -/
theorem get_all_jobs_sorted :
    (∀ s : JQState,
      (get_all_jobs s).Sorted jobKeyLe ∧
      List.Perm (get_all_jobs s) (s.jobs.map Prod.snd)) ∧
    (∀ a b : Job, jobKeyLe a b ↔
      (status_order a.status < status_order b.status ∨
        (status_order a.status = status_order b.status ∧
          a.created_at ≤ b.created_at))) ∧
    status_order .processing = 0 ∧ status_order .pending = 1 ∧
    status_order .completed = 2 ∧ status_order .failed = 3 ∧
    get_all_jobs listScenario =
      [mkJob "C" .processing 3, mkJob "B" .pending 2,
       mkJob "D" .pending 4, mkJob "A" .failed 1] := by
  refine ⟨fun s => ⟨List.sorted_insertionSort jobKeyLe _,
    List.perm_insertionSort jobKeyLe _⟩,
    fun a b => Iff.rfl, rfl, rfl, rfl, rfl, by decide⟩

/-- Claim C6 witness: the sortedness and permutation facts instantiated at
the concrete four-job population. -/
theorem get_all_jobs_sorted_witness :
    (get_all_jobs listScenario).Sorted jobKeyLe ∧
    List.Perm (get_all_jobs listScenario) (listScenario.jobs.map Prod.snd) :=
  get_all_jobs_sorted.1 listScenario

/-- Claim C7 witness: the stats partition instantiated at the concrete
four-job population. -/
theorem queue_stats_partition_witness :
    (get_queue_stats listScenario).pending + (get_queue_stats listScenario).processing +
        (get_queue_stats listScenario).completed + (get_queue_stats listScenario).failed =
      (get_queue_stats listScenario).total ∧
    (get_queue_stats listScenario).total = listScenario.jobs.length :=
  queue_stats_partition listScenario

/-- Claim C9: for every stored job and every value `v` (including `v < 0`),
`set_progress` stores exactly `min(v, 100)`: only the upper bound is
enforced, there is no lower clamp. -/
theorem set_progress_stores_min (s : JQState) (job_id : String) (j : Job)
    (v : ℚ) (hl : s.lockHeld = false) (hj : lookupJob s.jobs job_id = some j) :
    ∃ s1, set_progress job_id v s = .ok s1 () ∧
      lookupJob s1.jobs job_id = some { j with progress := min v 100 } ∧
      (∀ other, other ≠ job_id → lookupJob s1.jobs other = lookupJob s.jobs other) ∧
      s1.queue = s.queue ∧ s1.lockHeld = false := by
  unfold set_progress update_job
  simp only [hl, Bool.false_eq_true, if_false]
  refine ⟨_, rfl, ?_, ?_, rfl, rfl⟩
  · rw [lookupJob_mapJob_self, hj]
    rfl
  · intro other ho
    exact lookupJob_mapJob_ne s.jobs job_id other _ ho

/-- Claim C9 witness: with a stored job at progress 40, `set_progress(-5)`
stores `min(-5, 100) = -5`, a negative value. -/
theorem set_progress_stores_min_witness :
    (∃ s1, set_progress "p1" (-5) sOneProcessing = .ok s1 () ∧
      lookupJob s1.jobs "p1" =
        some { mkJob "p1" .processing 1 with progress := min (-5) 100 } ∧
      (∀ other, other ≠ "p1" →
        lookupJob s1.jobs other = lookupJob sOneProcessing.jobs other) ∧
      s1.queue = sOneProcessing.queue ∧ s1.lockHeld = false) ∧
    min (-5 : ℚ) 100 = -5 :=
  ⟨set_progress_stores_min sOneProcessing "p1" (mkJob "p1" .processing 1) (-5)
    rfl rfl, by norm_num⟩

/-- Claim C10: `fail_job` sets status to FAILED, sets `completed_at`, and
appends exactly one log entry carrying the error text, leaving every other
field of the job (`id`, `progress`, `created_at`, `output_url`, `request`),
every other job, and the queue unchanged.  In particular progress keeps its
last value and `output_url` is untouched. -/
theorem fail_job_frame (s : JQState) (job_id : String) (j : Job) (now : ℕ)
    (ts error : String) (hl : s.lockHeld = false)
    (hj : lookupJob s.jobs job_id = some j) :
    ∃ s2, fail_job job_id now ts error s = .ok s2 () ∧
      lookupJob s2.jobs job_id = some
        { j with status := .failed, completed_at := some now,
                 logs := j.logs ++ ["[" ++ ts ++ "] " ++ ("Job failed: " ++ error)] } ∧
      (∀ other, other ≠ job_id → lookupJob s2.jobs other = lookupJob s.jobs other) ∧
      s2.queue = s.queue ∧ s2.lockHeld = false := by
  unfold fail_job update_job add_log
  simp only [hl, Bool.false_eq_true, if_false]
  refine ⟨_, rfl, ?_, ?_, rfl, rfl⟩
  · rw [lookupJob_mapJob_self, lookupJob_mapJob_self, hj]
    rfl
  · intro other ho
    rw [lookupJob_mapJob_ne _ _ _ _ ho, lookupJob_mapJob_ne _ _ _ _ ho]

/-- Claim C10 witness at a concrete store: failing job `p1` flips it to
FAILED with the error log entry appended and progress kept at its prior
value. -/
theorem fail_job_frame_witness :
    ∃ s2, fail_job "p1" 7 "00:00:07" "boom" sOneProcessing = .ok s2 () ∧
      lookupJob s2.jobs "p1" = some
        { mkJob "p1" .processing 1 with
          status := .failed, completed_at := some 7,
          logs := (mkJob "p1" .processing 1).logs ++
            ["[" ++ "00:00:07" ++ "] " ++ ("Job failed: " ++ "boom")] } ∧
      (∀ other, other ≠ "p1" →
        lookupJob s2.jobs other = lookupJob sOneProcessing.jobs other) ∧
      s2.queue = sOneProcessing.queue ∧ s2.lockHeld = false :=
  fail_job_frame sOneProcessing "p1" (mkJob "p1" .processing 1) 7 "00:00:07"
    "boom" rfl rfl

/-- Claim C1 counterexample: `set_progress` has no lower clamp against the
previously stored value, so the sequence of calls `set_progress(50)`,
`set_progress(30)` on one job leaves the stored progress at 30 — it
decreased from one call to the next, refuting the claimed unconditional
monotonicity. -/
theorem progress_can_decrease :
    ((lookupJob ((set_progress "p1" 50 sOneProcessing).state).jobs "p1").map
        Job.progress = some 50) ∧
    ((lookupJob ((set_progress "p1" 30
        ((set_progress "p1" 50 sOneProcessing).state)).state).jobs "p1").map
        Job.progress = some 30) ∧
    (30 : ℚ) < 50 := by
  refine ⟨by decide, by decide, by norm_num⟩

/-- Claim C1 as amended: each `set_progress` call stores exactly
`min(value, 100)`, so the stored value never exceeds 100; from one call to
the next it never decreases **provided the call values are non-decreasing**
(there is no clamp against the previously stored value, so a smaller call
value does decrease it). -/
theorem set_progress_clamp_monotone (s : JQState) (job_id : String) (j : Job)
    (v w : ℚ) (hl : s.lockHeld = false) (hj : lookupJob s.jobs job_id = some j) :
    ∃ j1 j2,
      lookupJob ((set_progress job_id v s).state).jobs job_id = some j1 ∧
      lookupJob ((set_progress job_id w
        ((set_progress job_id v s).state)).state).jobs job_id = some j2 ∧
      j1.progress = min v 100 ∧ j2.progress = min w 100 ∧
      j1.progress ≤ 100 ∧ j2.progress ≤ 100 ∧
      (v ≤ w → j1.progress ≤ j2.progress) := by
  obtain ⟨s1, h1, hj1, _, _, hl1⟩ := set_progress_stores_min s job_id j v hl hj
  obtain ⟨s2, h2, hj2, _, _, _⟩ :=
    set_progress_stores_min s1 job_id { j with progress := min v 100 } w hl1 hj1
  have e1 : (set_progress job_id v s).state = s1 := by rw [h1]; rfl
  have e2 : (set_progress job_id w s1).state = s2 := by rw [h2]; rfl
  refine ⟨{ j with progress := min v 100 },
    { j with progress := min w 100 },
    ?_, ?_, rfl, rfl, min_le_right _ _, min_le_right _ _,
    fun hvw => min_le_min hvw le_rfl⟩
  · rw [e1]
    exact hj1
  · rw [e1, e2]
    exact hj2

/-- Claim C1 witness: two calls with non-decreasing values 30 then 60 on a
stored PENDING job; the stored values are `min 30 100` then `min 60 100`,
both at most 100 and non-decreasing. -/
theorem set_progress_clamp_monotone_witness :
    ∃ j1 j2,
      lookupJob ((set_progress "P" 30 sOnePending).state).jobs "P" = some j1 ∧
      lookupJob ((set_progress "P" 60
        ((set_progress "P" 30 sOnePending).state)).state).jobs "P" = some j2 ∧
      j1.progress = min 30 100 ∧ j2.progress = min 60 100 ∧
      j1.progress ≤ 100 ∧ j2.progress ≤ 100 ∧
      ((30 : ℚ) ≤ 60 → j1.progress ≤ j2.progress) :=
  set_progress_clamp_monotone sOnePending "P" (mkJob "P" .pending 1) 30 60 rfl rfl

/-- Claim C3, the code evaluated at the failing input: with jobs A, B, C
created in that order (all PENDING, queue `[A, B, C]`), `cancel_job("B")`
never returns — it acquires the non-reentrant `_lock`, flips B to FAILED,
and then blocks forever inside `add_log` trying to re-acquire the lock.
B's id is never removed from the queue, no cancellation log is written, and
a subsequent `get_next_job` on the resulting state also blocks on the lock
held forever, so the two dequeues promised by the claim can never happen. -/
theorem cancel_before_dequeue_deadlocks :
    (cancel_job "B" 4 "00:00:04" fifoState).isDeadlock = true ∧
    ((cancel_job "B" 4 "00:00:04" fifoState).state).queue = ["A", "B", "C"] ∧
    ((cancel_job "B" 4 "00:00:04" fifoState).state).lockHeld = true ∧
    ((lookupJob ((cancel_job "B" 4 "00:00:04" fifoState).state).jobs "B").map
      Job.status = some .failed) ∧
    ((lookupJob ((cancel_job "B" 4 "00:00:04" fifoState).state).jobs "B").map
      Job.logs = some ["[00:00:02] Job created and added to queue"]) ∧
    (get_next_job ((cancel_job "B" 4 "00:00:04" fifoState).state)).isDeadlock
      = true := by
  decide

/-- Claim C5: on a job that is not PENDING, `cancel_job` really is a
complete no-op (store, queue and lock all unchanged); but on a PENDING job
the call flips status and `completed_at` and then self-deadlocks inside
`add_log` (non-reentrant lock re-acquired), so the claimed cancellation log
entry and queue removal never happen and the call never returns. -/
theorem cancel_job_guard :
    (∀ (s : JQState) (job_id : String) (j : Job) (now : ℕ) (ts : String),
      s.lockHeld = false → lookupJob s.jobs job_id = some j →
      j.status ≠ .pending → cancel_job job_id now ts s = .ok s ()) ∧
    ((cancel_job "P" 9 "00:00:09" sOnePending).isDeadlock = true ∧
     ((lookupJob ((cancel_job "P" 9 "00:00:09" sOnePending).state).jobs "P").map
       Job.status = some .failed) ∧
     ((lookupJob ((cancel_job "P" 9 "00:00:09" sOnePending).state).jobs "P").map
       Job.completed_at = some (some 9)) ∧
     ((lookupJob ((cancel_job "P" 9 "00:00:09" sOnePending).state).jobs "P").map
       Job.logs = some []) ∧
     ((cancel_job "P" 9 "00:00:09" sOnePending).state).queue = ["P"] ∧
     ((cancel_job "P" 9 "00:00:09" sOnePending).state).lockHeld = true) := by
  constructor
  · intro s job_id j now ts hl hj hst
    obtain ⟨jobs, queue, lockHeld⟩ := s
    simp only at hl
    subst hl
    simp only at hj
    simp [cancel_job, hj, hst]
  · decide

/-- Claim C5 witness: cancelling the PROCESSING job `p1` returns normally
and leaves the whole store state untouched. -/
theorem cancel_job_guard_witness :
    cancel_job "p1" 11 "00:00:11" sOneProcessing = .ok sOneProcessing () :=
  cancel_job_guard.1 sOneProcessing "p1" (mkJob "p1" .processing 1) 11 "00:00:11"
    rfl rfl (by decide)

/-! ## Claims about the composition engine -/

theorem process_clip_ok (env : RenderEnv) (cr : ClipRequest)
    (h : env.path_exists (env.resolve cr.video_url) = true) :
    ∃ ls pc, process_clip env cr = (ls, .ok pc) := by
  unfold process_clip
  simp only [h, if_true]
  exact ⟨_, _, rfl⟩

theorem progress_shift (n i len : ℕ) :
    (((i : ℚ) + 1) / (n : ℚ) * 50) ::
      (List.range len).map (fun k => (((i + 1 + k : ℕ) : ℚ) + 1) / (n : ℚ) * 50) =
    (List.range (len + 1)).map (fun k => (((i + k : ℕ) : ℚ) + 1) / (n : ℚ) * 50) := by
  rw [List.range_succ_eq_map, List.map_cons, List.map_map]
  congr 1
  refine List.map_congr_left fun a _ => ?_
  simp only [Function.comp_apply, Nat.succ_eq_add_one]
  push_cast
  ring_nf

theorem processClips_ok (env : RenderEnv) (n : ℕ) :
    ∀ (l : List ClipRequest) (i : ℕ),
      (∀ cr ∈ l, env.path_exists (env.resolve cr.video_url) = true) →
      ∃ ls pcs, processClips env n i l =
        (ls, (List.range l.length).map
          (fun k => (((i + k : ℕ) : ℚ) + 1) / (n : ℚ) * 50), .ok pcs) := by
  intro l
  induction l with
  | nil => exact fun i _ => ⟨[], [], rfl⟩
  | cons cr rest ih =>
    intro i hall
    have hcr := hall cr (List.mem_cons_self cr rest)
    obtain ⟨cls, cpc, hclip⟩ := process_clip_ok env cr hcr
    obtain ⟨ls2, pcs2, h2⟩ := ih (i + 1) (fun c hc => hall c (List.mem_cons_of_mem _ hc))
    refine ⟨["Processing clip " ++ toString (i + 1) ++ "/" ++ toString n,
      "Clip video_url: " ++ cr.video_url] ++ cls ++ ls2, cpc :: pcs2, ?_⟩
    simp only [processClips, hclip, h2, List.length_cons, Prod.mk.injEq]
    refine ⟨by trivial, ?_, by trivial⟩
    exact progress_shift n i rest.length

/-- Claim C2 counterexample: a one-clip export with an **empty** audio-track
list still reports the 80% checkpoint — `progress_callback(80)` sits outside
the `if audio_tracks:` block — refuting "80 only if the request's
audio-track list is non-empty". -/
theorem progress_80_without_audio :
    (process_export envAllOk [plainClip] [] defaultSettings).progress
      = [50, 60, 70, 80, 100] ∧
    (80 : ℚ) ∈ (process_export envAllOk [plainClip] [] defaultSettings).progress ∧
    ([] : List AudioTrackRequest) = [] := by
  have hp : (process_export envAllOk [plainClip] [] defaultSettings).progress
      = [50, 60, 70, 80, 100] := by
    simp [process_export, processClips, process_clip, buildTextOverlays,
      buildImageOverlays, create_image_overlay_clip, processAudio, envAllOk,
      plainClip, defaultSettings]
  exact ⟨hp, by rw [hp]; norm_num, rfl⟩

/-- Claim C2 as amended: with every clip resolvable, the progress trace is
`(i+1)/n*50` per clip, then 60 after concatenation, 70 after aspect-ratio
normalization, 80 after the audio stage **unconditionally** (whether or not
audio tracks were given), and 100 exactly when the artifact write succeeds;
when the write fails the trace ends at 80 and the error propagates. -/
theorem export_progress_checkpoints (env : RenderEnv) (clips : List ClipRequest)
    (audio : List AudioTrackRequest) (settings : ExportSettings)
    (_hne : clips ≠ [])
    (hres : ∀ cr ∈ clips, env.path_exists (env.resolve cr.video_url) = true) :
    (env.write = none →
      (process_export env clips audio settings).progress =
        ((List.range clips.length).map
          (fun i : ℕ => ((i : ℚ) + 1) / (clips.length : ℚ) * 50)) ++ [60, 70, 80, 100] ∧
      ∃ out, (process_export env clips audio settings).result = .ok out) ∧
    (∀ e, env.write = some e →
      (process_export env clips audio settings).progress =
        ((List.range clips.length).map
          (fun i : ℕ => ((i : ℚ) + 1) / (clips.length : ℚ) * 50)) ++ [60, 70, 80] ∧
      (process_export env clips audio settings).result = .error e) := by
  obtain ⟨ls0, pcs0, h0⟩ := processClips_ok env clips.length clips 0 hres
  have hm : (List.range clips.length).map
      (fun k => (((0 + k : ℕ) : ℚ) + 1) / (clips.length : ℚ) * 50) =
      (List.range clips.length).map
      (fun i : ℕ => ((i : ℚ) + 1) / (clips.length : ℚ) * 50) :=
    List.map_congr_left fun k _ => by norm_num
  rw [hm] at h0
  constructor
  · intro hw
    constructor
    · simp [process_export, h0, hw, List.append_assoc]
    · exact ⟨"/api/download/" ++ ("export_" ++ env.uuid ++ "." ++ settings.format),
        by simp [process_export, h0, hw]⟩
  · intro e hw
    constructor
    · simp [process_export, h0, hw, List.append_assoc]
    · simp [process_export, h0, hw]

/-- Claim C2 witness: the success and failure branches instantiated at a
concrete resolvable one-clip export. -/
theorem export_progress_checkpoints_witness :
    (process_export envAllOk [plainClip] [] defaultSettings).progress =
      ((List.range [plainClip].length).map
        (fun i : ℕ => ((i : ℚ) + 1) / (([plainClip].length : ℕ) : ℚ) * 50)) ++
        [60, 70, 80, 100] :=
  (export_progress_checkpoints envAllOk [plainClip] [] defaultSettings
    (by simp) (fun cr _ => rfl)).1 rfl |>.1

/-- Claim C4: for an export with one resolvable clip and one image overlay
whose remote fetch fails, the per-clip stage catches the failure, logs the
warning, drops the overlay (the processed clip composites zero overlays)
and the export still completes successfully. -/
theorem overlay_fetch_failure_recoverable (env : RenderEnv) (cr : ClipRequest)
    (ov : ImageOverlay) (settings : ExportSettings)
    (hpath : env.path_exists (env.resolve cr.video_url) = true)
    (hfetch : env.fetchImage ov.image_url = false)
    (htext : cr.text_overlays = [])
    (himg : cr.image_overlays = [ov])
    (hwrite : env.write = none) :
    (process_clip env cr).2 = .ok { textCount := 0, imageCount := 0 } ∧
    ("Warning: Failed to add image overlay: " ++
      ("Failed to download image from " ++ ov.image_url ++ ": " ++
        env.httpErr ov.image_url)) ∈ (process_clip env cr).1 ∧
    ∃ out, (process_export env [cr] [] settings).result = .ok out := by
  refine ⟨?_, ?_, ?_⟩
  · simp [process_clip, hpath, htext, himg, buildTextOverlays,
      buildImageOverlays, create_image_overlay_clip, hfetch]
  · simp [process_clip, hpath, htext, himg, buildTextOverlays,
      buildImageOverlays, create_image_overlay_clip, hfetch]
  · obtain ⟨ls0, pcs0, h0⟩ := processClips_ok env 1 [cr] 0
      (by intro c hc; simp at hc; subst hc; exact hpath)
    exact ⟨"/api/download/" ++ ("export_" ++ env.uuid ++ "." ++ settings.format),
      by simp [process_export, h0, hwrite]⟩

/-- Claim C4 witness: the concrete one-clip export `overlayClip` in the
environment where the overlay fetch fails. -/
theorem overlay_fetch_failure_recoverable_witness :
    (process_clip envFetchFail overlayClip).2 =
      .ok { textCount := 0, imageCount := 0 } ∧
    ("Warning: Failed to add image overlay: " ++
      ("Failed to download image from " ++ sampleOverlay.image_url ++ ": " ++
        envFetchFail.httpErr sampleOverlay.image_url))
      ∈ (process_clip envFetchFail overlayClip).1 ∧
    ∃ out, (process_export envFetchFail [overlayClip] [] defaultSettings).result
      = .ok out :=
  overlay_fetch_failure_recoverable envFetchFail overlayClip sampleOverlay
    defaultSettings rfl rfl rfl rfl rfl

theorem ratFloor_eq_intFloor (q : ℚ) : Rat.floor q = ⌊q⌋ := by
  rw [Rat.floor_def', Rat.floor_def]

theorem floor_mul_min_le_left (a b tw th : ℕ) (ha : 0 < a) :
    (Rat.floor ((a : ℚ) * min ((tw : ℚ) / (a : ℚ)) ((th : ℚ) / (b : ℚ)))).toNat
      ≤ tw := by
  have ha' : ((a : ℚ)) ≠ 0 := Nat.cast_ne_zero.mpr ha.ne'
  have h1 : (a : ℚ) * min ((tw : ℚ) / (a : ℚ)) ((th : ℚ) / (b : ℚ)) ≤ (tw : ℚ) := by
    calc (a : ℚ) * min ((tw : ℚ) / (a : ℚ)) ((th : ℚ) / (b : ℚ))
        ≤ (a : ℚ) * ((tw : ℚ) / (a : ℚ)) :=
          mul_le_mul_of_nonneg_left (min_le_left _ _) (by positivity)
      _ = (tw : ℚ) := by field_simp
  rw [ratFloor_eq_intFloor]
  have h2 : ⌊(a : ℚ) * min ((tw : ℚ) / (a : ℚ)) ((th : ℚ) / (b : ℚ))⌋ ≤ (tw : ℤ) := by
    simpa using Int.floor_mono h1
  calc (⌊(a : ℚ) * min ((tw : ℚ) / (a : ℚ)) ((th : ℚ) / (b : ℚ))⌋).toNat
      ≤ ((tw : ℤ)).toNat := Int.toNat_le_toNat h2
    _ = tw := Int.toNat_natCast tw

theorem floor_mul_min_le_right (a b tw th : ℕ) (hb : 0 < b) :
    (Rat.floor ((b : ℚ) * min ((tw : ℚ) / (a : ℚ)) ((th : ℚ) / (b : ℚ)))).toNat
      ≤ th := by
  have hb' : ((b : ℚ)) ≠ 0 := Nat.cast_ne_zero.mpr hb.ne'
  have h1 : (b : ℚ) * min ((tw : ℚ) / (a : ℚ)) ((th : ℚ) / (b : ℚ)) ≤ (th : ℚ) := by
    calc (b : ℚ) * min ((tw : ℚ) / (a : ℚ)) ((th : ℚ) / (b : ℚ))
        ≤ (b : ℚ) * ((th : ℚ) / (b : ℚ)) :=
          mul_le_mul_of_nonneg_left (min_le_right _ _) (by positivity)
      _ = (th : ℚ) := by field_simp
  rw [ratFloor_eq_intFloor]
  have h2 : ⌊(b : ℚ) * min ((tw : ℚ) / (a : ℚ)) ((th : ℚ) / (b : ℚ))⌋ ≤ (th : ℤ) := by
    simpa using Int.floor_mono h1
  calc (⌊(b : ℚ) * min ((tw : ℚ) / (a : ℚ)) ((th : ℚ) / (b : ℚ))⌋).toNat
      ≤ ((th : ℤ)).toNat := Int.toNat_le_toNat h2
    _ = th := Int.toNat_natCast th

theorem resize_content_le_target (srcW srcH : ℕ) (ar : String) (q : Quality)
    (hW : 0 < srcW) (hH : 0 < srcH) :
    (resize_to_aspect_ratio srcW srcH ar q).newW ≤
      (resize_to_aspect_ratio srcW srcH ar q).targetW ∧
    (resize_to_aspect_ratio srcW srcH ar q).newH ≤
      (resize_to_aspect_ratio srcW srcH ar q).targetH := by
  unfold resize_to_aspect_ratio
  exact ⟨floor_mul_min_le_left srcW srcH _ _ hW,
    floor_mul_min_le_right srcW srcH _ _ hH⟩

/-- Claim C8: aspect-ratio normalization picks the target as the quality
preset W×H for 16:9, the preset swapped for 9:16, and the square
`min(presetW, presetH)` for 1:1; computes
`scale = min(targetW/srcW, targetH/srcH)`, resizes the content to the
(integer-truncated) `srcW·scale × srcH·scale` — which always fits inside
the target — and centers it at `((targetW-newW)/2, (targetH-newH)/2)` on
the target-sized background.  In particular a 1280×720 source at 9:16
optimised (preset 1280×720) gives target 720×1280, scale 9/16 = 0.5625,
content 720×405 placed at (0, 437). -/
theorem resize_letterbox_geometry (srcW srcH : ℕ) (q : Quality)
    (hW : 0 < srcW) (hH : 0 < srcH) :
    (∀ ar : String,
      (resize_to_aspect_ratio srcW srcH ar q).scale =
        min (((resize_to_aspect_ratio srcW srcH ar q).targetW : ℚ) / (srcW : ℚ))
            (((resize_to_aspect_ratio srcW srcH ar q).targetH : ℚ) / (srcH : ℚ)) ∧
      (resize_to_aspect_ratio srcW srcH ar q).newW =
        (Rat.floor ((srcW : ℚ) * (resize_to_aspect_ratio srcW srcH ar q).scale)).toNat ∧
      (resize_to_aspect_ratio srcW srcH ar q).newH =
        (Rat.floor ((srcH : ℚ) * (resize_to_aspect_ratio srcW srcH ar q).scale)).toNat ∧
      (resize_to_aspect_ratio srcW srcH ar q).newW ≤
        (resize_to_aspect_ratio srcW srcH ar q).targetW ∧
      (resize_to_aspect_ratio srcW srcH ar q).newH ≤
        (resize_to_aspect_ratio srcW srcH ar q).targetH ∧
      (resize_to_aspect_ratio srcW srcH ar q).xPos =
        ((resize_to_aspect_ratio srcW srcH ar q).targetW -
          (resize_to_aspect_ratio srcW srcH ar q).newW) / 2 ∧
      (resize_to_aspect_ratio srcW srcH ar q).yPos =
        ((resize_to_aspect_ratio srcW srcH ar q).targetH -
          (resize_to_aspect_ratio srcW srcH ar q).newH) / 2) ∧
    (resize_to_aspect_ratio srcW srcH "16:9" q).targetW = (QUALITY_SETTINGS q).width ∧
    (resize_to_aspect_ratio srcW srcH "16:9" q).targetH = (QUALITY_SETTINGS q).height ∧
    (resize_to_aspect_ratio srcW srcH "9:16" q).targetW = (QUALITY_SETTINGS q).height ∧
    (resize_to_aspect_ratio srcW srcH "9:16" q).targetH = (QUALITY_SETTINGS q).width ∧
    (resize_to_aspect_ratio srcW srcH "1:1" q).targetW =
      min (QUALITY_SETTINGS q).width (QUALITY_SETTINGS q).height ∧
    (resize_to_aspect_ratio srcW srcH "1:1" q).targetH =
      min (QUALITY_SETTINGS q).width (QUALITY_SETTINGS q).height ∧
    resize_to_aspect_ratio 1280 720 "9:16" .optimised =
      { targetW := 720, targetH := 1280, scale := 9/16, newW := 720, newH := 405,
        xPos := 0, yPos := 437 } := by
  refine ⟨fun ar => ⟨rfl, rfl, rfl,
    (resize_content_le_target srcW srcH ar q hW hH).1,
    (resize_content_le_target srcW srcH ar q hW hH).2, rfl, rfl⟩,
    rfl, rfl, rfl, rfl, rfl, rfl, ?_⟩
  have h1 : min ((720 : ℚ) / 1280) ((1280 : ℚ) / 720) = 9 / 16 := by norm_num
  have hs1 : ("9:16" : String) ≠ "16:9" := by decide
  simp only [resize_to_aspect_ratio, QUALITY_SETTINGS]
  norm_num [h1, hs1, ratFloor_eq_intFloor]
  exact ⟨rfl, rfl, rfl⟩

/-- Claim C8 witness: the geometry formulas instantiated at the 1280×720
source with the optimised preset. -/
theorem resize_letterbox_geometry_witness :
    resize_to_aspect_ratio 1280 720 "9:16" .optimised =
      { targetW := 720, targetH := 1280, scale := 9/16, newW := 720, newH := 405,
        xPos := 0, yPos := 437 } :=
  (resize_letterbox_geometry 1280 720 .optimised (by norm_num)
    (by norm_num)).2.2.2.2.2.2.2

end VideoEditor
